import Mathlib

/-!
Verification of the weapon-upgrade core of the game server
(`src/main.py`): the chance model `calc_chance`, the upgrade engine
(lines 180-220 of `upgrade_item`), and the HTTP-handler wrapper that
performs the player/weapon lookups (lines 168-178).

Numeric values are modelled as rationals (`ℚ`): the Python code computes
with float literals whose exact decimal values are reproduced here.
Python exceptions (`HTTPException`, the `AttributeError` raised by
dereferencing a missing inventory row) are modelled with `Except`.
-/

namespace CrownlessReign

/-- Row of `WeaponModel` (src/main.py lines 44-50): display name,
integer upgrade level and the derived glow flag. -/
structure Weapon where
  name : String
  upgrade_level : Int
  glow : Bool
deriving Repr, DecidableEq

/-- Row of `InventoryModel` (src/main.py lines 52-56): the sigil-protection
charge counter. -/
structure Inventory where
  sigil_protection : Int
deriving Repr, DecidableEq

/-- Schema `UpgradeRequest` (src/main.py lines 91-94). -/
structure UpgradeRequest where
  player_id : String
  item_type : String
  use_sigil : Bool
deriving Repr, DecidableEq

/-- Schema `UpgradeResponse` (src/main.py lines 96-100): pydantic
defaults are `new_upgrade_level = None` and `glow = False`, so response
constructors that omit those fields produce `none` / `false`. -/
structure UpgradeResponse where
  success : Bool
  new_upgrade_level : Option Int
  glow : Bool
  message : String
deriving Repr, DecidableEq

/-- Exceptions the handler can raise: `HTTPException(404, detail)` from
the lookups, and the Python `AttributeError` that dereferencing
`inventory.sigil_protection` raises when the inventory row is `None`. -/
inductive PyError where
  | httpNotFound (detail : String)
  | attributeError
deriving Repr, DecidableEq

/-- State and response produced by a completed (non-raising) run of the
upgrade logic: the weapon and inventory as committed, and the response. -/
structure EngineOk where
  weapon : Weapon
  inventory : Option Inventory
  resp : UpgradeResponse
deriving Repr, DecidableEq

/-- Function `calc_chance` (src/main.py lines 184-194), the success probability
for attempting level `lvl`. Float literals become exact rationals. -/
def calc_chance (lvl : Int) : ℚ :=
  if lvl ≤ 5 then 1
  else if lvl ≤ 10 then 85/100 - ((lvl : ℚ) - 6) * (5/100)
  else if lvl = 11 then 3/10
  else if lvl = 12 then 25/100
  else if lvl = 13 then 2/10
  else if lvl = 14 then 15/100
  else if lvl = 15 then 1/10
  else 0

/-- The statement pair `weapon.upgrade_level = lvl; weapon.glow = weapon.upgrade_level >= 11`
(src/main.py lines 200-201 and 216-217): a level write always followed by
the glow recomputation. -/
def setLevel (weapon : Weapon) (lvl : Int) : Weapon :=
  { weapon with upgrade_level := lvl, glow := decide (lvl ≥ 11) }

/-- The upgrade engine: src/main.py lines 180-220 of `upgrade_item`,
after the lookups, given the drawn sample `r` of `random.random()`.
The inventory is `Option` because the handler never checks that the
inventory row exists; the branch reading `inventory.sigil_protection`
raises `AttributeError` when it is `None`. -/
def attemptUpgrade (weapon : Weapon) (inventory : Option Inventory)
    (use_sigil : Bool) (r : ℚ) : Except PyError EngineOk :=
  let level := weapon.upgrade_level
  if level ≥ 15 then
    .ok ⟨weapon, inventory, ⟨false, none, false, "Max level reached"⟩⟩
  else
    let chance := calc_chance (level + 1)
    if r ≤ chance then
      let w := setLevel weapon (weapon.upgrade_level + 1)
      .ok ⟨w, inventory,
        ⟨true, some w.upgrade_level, w.glow,
          "Upgrade success! " ++ w.name ++ " is now +" ++ toString w.upgrade_level⟩⟩
    else
      if level ≥ 11 then
        if use_sigil then
          match inventory with
          | none => .error .attributeError
          | some inv =>
            if inv.sigil_protection > 0 then
              .ok ⟨weapon, some { inv with sigil_protection := inv.sigil_protection - 1 },
                ⟨false, none, false, "Upgrade failed but item protected by Sigil."⟩⟩
            else
              let w := setLevel weapon (weapon.upgrade_level - 1)
              .ok ⟨w, inventory,
                ⟨false, none, false,
                  "Upgrade failed. Item downgraded to +" ++ toString w.upgrade_level⟩⟩
        else
          let w := setLevel weapon (weapon.upgrade_level - 1)
          .ok ⟨w, inventory,
            ⟨false, none, false,
              "Upgrade failed. Item downgraded to +" ++ toString w.upgrade_level⟩⟩
      else
        .ok ⟨weapon, inventory, ⟨false, none, false, "Upgrade failed."⟩⟩

/-- The database state visible to `/upgrade`: the registered player ids
and the weapon and inventory rows keyed by player id. -/
structure DB where
  players : List String
  weapons : List (String × Weapon)
  inventories : List (String × Inventory)
deriving Repr, DecidableEq

/-- Commit of a mutated row: replace the value stored under key `k`. -/
def setEntry {α : Type} (l : List (String × α)) (k : String) (v : α) :
    List (String × α) :=
  l.map (fun p => if p.1 = k then (k, v) else p)

/-- The `/upgrade` handler `upgrade_item` (src/main.py lines 168-220):
player lookup and 404, weapon/inventory lookups, weapon 404 (there is no
inventory check), then the engine, then commit of the mutated rows. -/
def upgrade_item (db : DB) (req : UpgradeRequest) (r : ℚ) :
    Except PyError (DB × UpgradeResponse) :=
  if ¬ db.players.contains req.player_id then
    .error (.httpNotFound "Player not found")
  else
    match db.weapons.lookup req.player_id with
    | none => .error (.httpNotFound "Weapon not found")
    | some weapon =>
      let inventory := db.inventories.lookup req.player_id
      match attemptUpgrade weapon inventory req.use_sigil r with
      | .error e => .error e
      | .ok out =>
        let db1 := { db with weapons := setEntry db.weapons req.player_id out.weapon }
        let db2 :=
          match out.inventory with
          | none => db1
          | some inv => { db1 with inventories := setEntry db1.inventories req.player_id inv }
        .ok (db2, out.resp)

/-- The probability table of spec §4.1, transcribed from the words of the spec
(ranges and values) to be compared with the `calc_chance` of the code. -/
def successChanceTable (targetLevel : Int) : ℚ :=
  if targetLevel ≤ 5 then 1
  else if 6 ≤ targetLevel ∧ targetLevel ≤ 10 then
    85/100 - (5/100) * ((targetLevel : ℚ) - 6)
  else if targetLevel = 11 then 30/100
  else if targetLevel = 12 then 25/100
  else if targetLevel = 13 then 20/100
  else if targetLevel = 14 then 15/100
  else if targetLevel = 15 then 10/100
  else 0

example : calc_chance 11 = 3/10 := by norm_num [calc_chance]

example : calc_chance 7 = 8/10 := by norm_num [calc_chance]

example :
    attemptUpgrade ⟨"Ironborn Sword", 10, false⟩ none false (3/10) =
      .ok ⟨⟨"Ironborn Sword", 11, true⟩, none,
        ⟨true, some 11, true, "Upgrade success! Ironborn Sword is now +11"⟩⟩ := by
  norm_num [attemptUpgrade, setLevel, calc_chance] <;> rfl

example :
    attemptUpgrade ⟨"Ironborn Sword", 12, true⟩ (some ⟨1⟩) true 1 =
      .ok ⟨⟨"Ironborn Sword", 12, true⟩, some ⟨0⟩,
        ⟨false, none, false, "Upgrade failed but item protected by Sigil."⟩⟩ := by
  norm_num [attemptUpgrade, setLevel, calc_chance] <;> rfl

/-- Exhaustive case analysis of the engine: exactly one of the six
outcome shapes (cap rejection, success, sigil-protected failure,
`AttributeError` on a missing inventory, downgrade, low-level free
failure) applies, and in each the exact result is given. -/
theorem attemptUpgrade_case_analysis (w : Weapon) (inv : Option Inventory)
    (u : Bool) (r : ℚ) :
    (w.upgrade_level ≥ 15 ∧
      attemptUpgrade w inv u r =
        .ok ⟨w, inv, ⟨false, none, false, "Max level reached"⟩⟩) ∨
    (w.upgrade_level < 15 ∧ r ≤ calc_chance (w.upgrade_level + 1) ∧
      attemptUpgrade w inv u r =
        .ok ⟨setLevel w (w.upgrade_level + 1), inv,
          ⟨true, some (w.upgrade_level + 1), decide (w.upgrade_level + 1 ≥ 11),
            "Upgrade success! " ++ w.name ++ " is now +" ++
              toString (w.upgrade_level + 1)⟩⟩) ∨
    (w.upgrade_level < 15 ∧ ¬ r ≤ calc_chance (w.upgrade_level + 1) ∧
      w.upgrade_level ≥ 11 ∧ u = true ∧
      (∃ i : Inventory, inv = some i ∧ i.sigil_protection > 0 ∧
        attemptUpgrade w inv u r =
          .ok ⟨w, some ⟨i.sigil_protection - 1⟩,
            ⟨false, none, false, "Upgrade failed but item protected by Sigil."⟩⟩)) ∨
    (w.upgrade_level < 15 ∧ ¬ r ≤ calc_chance (w.upgrade_level + 1) ∧
      w.upgrade_level ≥ 11 ∧ u = true ∧ inv = none ∧
      attemptUpgrade w inv u r = .error .attributeError) ∨
    (w.upgrade_level < 15 ∧ ¬ r ≤ calc_chance (w.upgrade_level + 1) ∧
      w.upgrade_level ≥ 11 ∧
      (u = false ∨ ∃ i : Inventory, inv = some i ∧ i.sigil_protection ≤ 0) ∧
      attemptUpgrade w inv u r =
        .ok ⟨setLevel w (w.upgrade_level - 1), inv,
          ⟨false, none, false,
            "Upgrade failed. Item downgraded to +" ++
              toString (w.upgrade_level - 1)⟩⟩) ∨
    (w.upgrade_level < 15 ∧ ¬ r ≤ calc_chance (w.upgrade_level + 1) ∧
      w.upgrade_level < 11 ∧
      attemptUpgrade w inv u r =
        .ok ⟨w, inv, ⟨false, none, false, "Upgrade failed."⟩⟩) := by
  by_cases h15 : w.upgrade_level ≥ 15
  · exact Or.inl ⟨h15, by simp [attemptUpgrade, h15]⟩
  · by_cases hr : r ≤ calc_chance (w.upgrade_level + 1)
    · refine Or.inr (Or.inl ⟨by omega, hr, ?_⟩)
      simp [attemptUpgrade, h15, hr, setLevel]
    · by_cases h11 : w.upgrade_level ≥ 11
      · cases u with
        | true =>
          cases inv with
          | none =>
            refine Or.inr (Or.inr (Or.inr (Or.inl ⟨by omega, hr, h11, rfl, rfl, ?_⟩)))
            simp [attemptUpgrade, h15, hr, h11]
          | some i =>
            by_cases hs : i.sigil_protection > 0
            · refine Or.inr (Or.inr (Or.inl ⟨by omega, hr, h11, rfl, i, rfl, hs, ?_⟩))
              simp [attemptUpgrade, h15, hr, h11, hs]
            · refine Or.inr (Or.inr (Or.inr (Or.inr (Or.inl
                ⟨by omega, hr, h11, Or.inr ⟨i, rfl, by omega⟩, ?_⟩))))
              simp [attemptUpgrade, h15, hr, h11, hs, setLevel]
        | false =>
          refine Or.inr (Or.inr (Or.inr (Or.inr (Or.inl
            ⟨by omega, hr, h11, Or.inl rfl, ?_⟩))))
          simp [attemptUpgrade, h15, hr, h11, setLevel]
      · refine Or.inr (Or.inr (Or.inr (Or.inr (Or.inr ⟨by omega, hr, by omega, ?_⟩))))
        simp [attemptUpgrade, h15, hr, h11]

/-- C3: `calc_chance` agrees with the piecewise table of spec §4.1 at
every integer target level (1.0 up to 5, `0.85 - 0.05*(t - 6)` on 6..10,
0.30/0.25/0.20/0.15/0.10 at 11..15, 0 above 15), and the returned value
always lies in [0, 1]. -/
theorem calc_chance_matches_table (lvl : Int) :
    calc_chance lvl = successChanceTable lvl ∧
    0 ≤ calc_chance lvl ∧ calc_chance lvl ≤ 1 := by
  by_cases h5 : lvl ≤ 5
  · norm_num [calc_chance, successChanceTable, h5]
  · by_cases h10 : lvl ≤ 10
    · have h6q : (6:ℚ) ≤ (lvl:ℚ) := by exact_mod_cast (by omega : (6:Int) ≤ lvl)
      have h10q : ((lvl:ℚ)) ≤ 10 := by exact_mod_cast h10
      have hand : 6 ≤ lvl ∧ lvl ≤ 10 := ⟨by omega, h10⟩
      unfold calc_chance successChanceTable
      rw [if_neg h5, if_neg h5, if_pos h10, if_pos hand]
      refine ⟨by ring, by linarith, by linarith⟩
    · by_cases h11 : lvl = 11
      · subst h11; norm_num [calc_chance, successChanceTable]
      · by_cases h12 : lvl = 12
        · subst h12; norm_num [calc_chance, successChanceTable]
        · by_cases h13 : lvl = 13
          · subst h13; norm_num [calc_chance, successChanceTable]
          · by_cases h14 : lvl = 14
            · subst h14; norm_num [calc_chance, successChanceTable]
            · by_cases h15 : lvl = 15
              · subst h15; norm_num [calc_chance, successChanceTable]
              · norm_num [calc_chance, successChanceTable, h5, h10, h11,
                  h12, h13, h14, h15]

/-- C2: at `upgrade_level ≥ 15` the engine changes nothing (weapon and
inventory are returned as they were) and answers `success = false`,
`message = "Max level reached"`, for any `use_sigil` and any draw; being
state-independent of the draw, repeated calls give the same result.
Moreover any call that starts at a level ≤ 15 ends at a level ≤ 15, so
the weapon can never exceed level 15. -/
theorem attemptUpgrade_max_level_cap (w w2 : Weapon) (inv inv2 : Option Inventory)
    (u u2 : Bool) (r r2 : ℚ) (out2 : EngineOk)
    (hmax : w.upgrade_level ≥ 15)
    (hle : w2.upgrade_level ≤ 15)
    (hok2 : attemptUpgrade w2 inv2 u2 r2 = .ok out2) :
    attemptUpgrade w inv u r =
      .ok ⟨w, inv, ⟨false, none, false, "Max level reached"⟩⟩ ∧
    out2.weapon.upgrade_level ≤ 15 := by
  constructor
  · simp [attemptUpgrade, hmax]
  · rcases attemptUpgrade_case_analysis w2 inv2 u2 r2 with
      ⟨h, heq⟩ | ⟨h, hr, heq⟩ | ⟨h, hr, h11, hu, i, hi, hs, heq⟩ |
      ⟨h, hr, h11, hu, hi, heq⟩ | ⟨h, hr, h11, hd, heq⟩ | ⟨h, hr, h11, heq⟩ <;>
      rw [hok2] at heq <;>
      first
      | (injection heq with heq; subst heq; simp [setLevel]; omega)
      | exact absurd heq (by simp)

/-- C1: on a failed draw below the cap: at level ≥ 11 with `use_sigil`
and a positive sigil count the inventory loses exactly one charge and
the weapon is untouched; at level ≥ 11 without a usable sigil the level
drops by one and glow is recomputed from the new level; below level 11
nothing changes; every failure response carries `success = false`. -/
theorem attemptUpgrade_failure_cases (w : Weapon) (inv : Inventory) (u : Bool) (r : ℚ)
    (hlt : w.upgrade_level < 15)
    (hfail : ¬ r ≤ calc_chance (w.upgrade_level + 1)) :
    (w.upgrade_level ≥ 11 → u = true → 0 < inv.sigil_protection →
      attemptUpgrade w (some inv) u r =
        .ok ⟨w, some ⟨inv.sigil_protection - 1⟩,
          ⟨false, none, false, "Upgrade failed but item protected by Sigil."⟩⟩) ∧
    (w.upgrade_level ≥ 11 → (u = false ∨ inv.sigil_protection ≤ 0) →
      attemptUpgrade w (some inv) u r =
        .ok ⟨setLevel w (w.upgrade_level - 1), some inv,
          ⟨false, none, false,
            "Upgrade failed. Item downgraded to +" ++
              toString (w.upgrade_level - 1)⟩⟩) ∧
    (w.upgrade_level < 11 →
      attemptUpgrade w (some inv) u r =
        .ok ⟨w, some inv, ⟨false, none, false, "Upgrade failed."⟩⟩) := by
  have h15 : ¬ w.upgrade_level ≥ 15 := by omega
  refine ⟨fun h11 hu hs => ?_, fun h11 hd => ?_, fun h11 => ?_⟩
  · subst hu
    simp [attemptUpgrade, h15, hfail, h11, hs]
  · rcases hd with hu | hs
    · subst hu
      simp [attemptUpgrade, h15, hfail, h11, setLevel]
    · cases u with
      | true =>
        simp [attemptUpgrade, h15, hfail, h11, setLevel, show ¬ inv.sigil_protection > 0 by omega]
      | false =>
        simp [attemptUpgrade, h15, hfail, h11, setLevel]
  · simp [attemptUpgrade, h15, hfail, show ¬ w.upgrade_level ≥ 11 by omega]

/-- C4 as written is false: with current level 10 the drawn sample
`r = 3/10` lies in [0,1) and equals `calc_chance 11` exactly; the non-strict
comparison of the code (`random.random() <= chance`) makes the attempt
succeed although the strict condition of the claim `r < calc_chance 11` does
not hold. -/
theorem success_threshold_strict_counterexample :
    attemptUpgrade ⟨"Ironborn Sword", 10, false⟩ none false (3/10) =
      .ok ⟨⟨"Ironborn Sword", 11, true⟩, none,
        ⟨true, some 11, true, "Upgrade success! Ironborn Sword is now +11"⟩⟩ ∧
    ¬ ((3:ℚ)/10 < calc_chance ((10:Int) + 1)) ∧
    (0:ℚ) ≤ 3/10 ∧ (3:ℚ)/10 < 1 := by
  refine ⟨?_, ?_, by norm_num, by norm_num⟩
  · norm_num [attemptUpgrade, setLevel, calc_chance] <;> rfl
  · norm_num [calc_chance]

/-- C4 amended: below the cap the attempt succeeds if and only if
`r ≤ calc_chance (L + 1)` (non-strict, matching the `<=` of the code); on
success the level becomes `L + 1` and glow is recomputed as
`upgrade_level ≥ 11`. -/
theorem attemptUpgrade_success_iff (w : Weapon) (inv : Option Inventory) (u : Bool)
    (r : ℚ) (out : EngineOk)
    (hlt : w.upgrade_level < 15)
    (hok : attemptUpgrade w inv u r = .ok out) :
    (out.resp.success = true ↔ r ≤ calc_chance (w.upgrade_level + 1)) ∧
    (out.resp.success = true →
      out.weapon.upgrade_level = w.upgrade_level + 1 ∧
      out.weapon.glow = decide (out.weapon.upgrade_level ≥ 11)) := by
  rcases attemptUpgrade_case_analysis w inv u r with
    ⟨h, heq⟩ | ⟨h, hr, heq⟩ | ⟨h, hr, h11, hu, i, hi, hs, heq⟩ |
    ⟨h, hr, h11, hu, hi, heq⟩ | ⟨h, hr, h11, hd, heq⟩ | ⟨h, hr, h11, heq⟩
  · omega
  · rw [hok] at heq; injection heq with heq; subst heq
    simp [setLevel, hr]
  · rw [hok] at heq; injection heq with heq; subst heq
    simp [hr]
  · rw [hok] at heq; exact absurd heq (by simp)
  · rw [hok] at heq; injection heq with heq; subst heq
    simp [hr]
  · rw [hok] at heq; injection heq with heq; subst heq
    simp [hr]

/-- C5: if the stored weapon satisfies `glow = (upgrade_level ≥ 11)`
before the call, it still satisfies it after every completed
`attemptUpgrade`, on all five outcome paths. -/
theorem attemptUpgrade_glow_invariant (w : Weapon) (inv : Option Inventory) (u : Bool)
    (r : ℚ) (out : EngineOk)
    (hg : w.glow = decide (w.upgrade_level ≥ 11))
    (hok : attemptUpgrade w inv u r = .ok out) :
    out.weapon.glow = decide (out.weapon.upgrade_level ≥ 11) := by
  rcases attemptUpgrade_case_analysis w inv u r with
    ⟨h, heq⟩ | ⟨h, hr, heq⟩ | ⟨h, hr, h11, hu, i, hi, hs, heq⟩ |
    ⟨h, hr, h11, hu, hi, heq⟩ | ⟨h, hr, h11, hd, heq⟩ | ⟨h, hr, h11, heq⟩
  · rw [hok] at heq; injection heq with heq; subst heq; exact hg
  · rw [hok] at heq; injection heq with heq; subst heq; simp [setLevel]
  · rw [hok] at heq; injection heq with heq; subst heq; exact hg
  · rw [hok] at heq; exact absurd heq (by simp)
  · rw [hok] at heq; injection heq with heq; subst heq; simp [setLevel]
  · rw [hok] at heq; injection heq with heq; subst heq; exact hg

/-- C6 as written is false: on the max-level path the response is built
without a `glow` argument, so the pydantic default `glow = False` is
returned while the stored weapon (level 15, glowing under the data-model
invariant) keeps `glow = true`. -/
theorem response_glow_counterexample :
    attemptUpgrade ⟨"Ironborn Sword", 15, true⟩ (some ⟨1⟩) false 0 =
      .ok ⟨⟨"Ironborn Sword", 15, true⟩, some ⟨1⟩,
        ⟨false, none, false, "Max level reached"⟩⟩ ∧
    (UpgradeResponse.mk false none false "Max level reached").glow ≠
      (Weapon.mk "Ironborn Sword" 15 true).glow := by
  refine ⟨by norm_num [attemptUpgrade], by simp⟩

/-- C6 amended: the response `glow` equals the glow of the stored weapon on
the success path, but on every failure path (cap, sigil, downgrade,
low-level) the response carries the pydantic default `glow = false`,
which agrees with the stored weapon only when the latter does not glow. -/
theorem attemptUpgrade_response_glow (w : Weapon) (inv : Option Inventory) (u : Bool)
    (r : ℚ) (out : EngineOk)
    (hok : attemptUpgrade w inv u r = .ok out) :
    (out.resp.success = true → out.resp.glow = out.weapon.glow) ∧
    (out.resp.success = false → out.resp.glow = false) := by
  rcases attemptUpgrade_case_analysis w inv u r with
    ⟨h, heq⟩ | ⟨h, hr, heq⟩ | ⟨h, hr, h11, hu, i, hi, hs, heq⟩ |
    ⟨h, hr, h11, hu, hi, heq⟩ | ⟨h, hr, h11, hd, heq⟩ | ⟨h, hr, h11, heq⟩
  · rw [hok] at heq; injection heq with heq; subst heq; simp
  · rw [hok] at heq; injection heq with heq; subst heq; simp [setLevel]
  · rw [hok] at heq; injection heq with heq; subst heq; simp
  · rw [hok] at heq; exact absurd heq (by simp)
  · rw [hok] at heq; injection heq with heq; subst heq; simp
  · rw [hok] at heq; injection heq with heq; subst heq; simp

/-- C8: the sigil counter never becomes negative: starting from a
non-negative count it stays non-negative, never increases, and the only
change the engine ever applies is a decrement by exactly 1 taken when
the count was strictly positive. -/
theorem sigil_protection_nonneg (w : Weapon) (inv : Inventory) (u : Bool) (r : ℚ)
    (out : EngineOk) (inv2 : Inventory)
    (hnn : 0 ≤ inv.sigil_protection)
    (hok : attemptUpgrade w (some inv) u r = .ok out)
    (hinv : out.inventory = some inv2) :
    0 ≤ inv2.sigil_protection ∧
    inv2.sigil_protection ≤ inv.sigil_protection ∧
    (inv2.sigil_protection ≠ inv.sigil_protection →
      0 < inv.sigil_protection ∧ inv2.sigil_protection = inv.sigil_protection - 1) := by
  rcases attemptUpgrade_case_analysis w (some inv) u r with
    ⟨h, heq⟩ | ⟨h, hr, heq⟩ | ⟨h, hr, h11, hu, i, hi, hs, heq⟩ |
    ⟨h, hr, h11, hu, hi, heq⟩ | ⟨h, hr, h11, hd, heq⟩ | ⟨h, hr, h11, heq⟩
  · rw [hok] at heq; injection heq with heq; subst heq
    simp at hinv; subst hinv; omega
  · rw [hok] at heq; injection heq with heq; subst heq
    simp at hinv; subst hinv; omega
  · injection hi with hi; subst hi
    rw [hok] at heq; injection heq with heq; subst heq
    simp at hinv; subst hinv; simp; omega
  · exact absurd hi (by simp)
  · rw [hok] at heq; injection heq with heq; subst heq
    simp at hinv; subst hinv; omega
  · rw [hok] at heq; injection heq with heq; subst heq
    simp at hinv; subst hinv; omega

/-- C10: the handler never reads `item_type`: two requests identical
except for `item_type` produce identical results (same state transition,
same response) — a request with `item_type ≠ "weapon"` still performs
the weapon upgrade. -/
theorem upgrade_item_ignores_item_type (db : DB) (p t1 t2 : String)
    (u : Bool) (r : ℚ) :
    upgrade_item db ⟨p, t1, u⟩ r = upgrade_item db ⟨p, t2, u⟩ r := rfl

/-- C7 as written is false: a registered player with a weapon but no
inventory row is not rejected with a not-found failure — the handler
runs the upgrade anyway and here mutates the weapon from +3 to +4; on
the sigil path the same missing row makes the handler raise an internal
`AttributeError` instead of rejecting the request up front. -/
theorem missing_inventory_counterexample :
    upgrade_item ⟨["p1"], [("p1", ⟨"Ironborn Sword", 3, false⟩)], []⟩
        ⟨"p1", "weapon", false⟩ (1/2) =
      .ok (⟨["p1"], [("p1", ⟨"Ironborn Sword", 4, false⟩)], []⟩,
        ⟨true, some 4, false, "Upgrade success! Ironborn Sword is now +4"⟩) ∧
    upgrade_item ⟨["p1"], [("p1", ⟨"Ironborn Sword", 11, true⟩)], []⟩
        ⟨"p1", "weapon", true⟩ 1 =
      .error PyError.attributeError := by
  constructor
  · norm_num [upgrade_item, attemptUpgrade, setLevel, calc_chance, setEntry,
      List.lookup] <;> rfl
  · norm_num [upgrade_item, attemptUpgrade, calc_chance, List.lookup]

/-- C7 amended: an unknown player is rejected with the "Player not
found" 404 and a known player without a weapon row with the "Weapon not
found" 404, in both cases before any upgrade logic and without any new
state being produced; a missing inventory row, however, is never
checked (see the counterexample). -/
theorem upgrade_item_not_found (db : DB) (req : UpgradeRequest) (r : ℚ)
    (hmiss : db.players.contains req.player_id = false ∨
      db.weapons.lookup req.player_id = none) :
    upgrade_item db req r = .error (.httpNotFound "Player not found") ∨
    upgrade_item db req r = .error (.httpNotFound "Weapon not found") := by
  by_cases hp : db.players.contains req.player_id = true
  · right
    rcases hmiss with hm | hm
    · rw [hp] at hm; exact absurd hm (by simp)
    · have hp2 : req.player_id ∈ db.players := by simpa using hp
      simp [upgrade_item, hp2, hm]
  · left
    have hp2 : req.player_id ∉ db.players := by simpa using hp
    simp [upgrade_item, hp2]

/-- Witness for C1 at a concrete input: level 12, one sigil charge,
`use_sigil = true`, failing draw `r = 1`: the charge is consumed, the
weapon untouched, the attempt reported as a failure. -/
theorem attemptUpgrade_failure_cases_witness :
    attemptUpgrade ⟨"Ironborn Sword", 12, true⟩ (some ⟨1⟩) true 1 =
      .ok ⟨⟨"Ironborn Sword", 12, true⟩, some ⟨0⟩,
        ⟨false, none, false, "Upgrade failed but item protected by Sigil."⟩⟩ :=
  (attemptUpgrade_failure_cases ⟨"Ironborn Sword", 12, true⟩ ⟨1⟩ true 1
    (by norm_num) (by norm_num [calc_chance])).1 (by norm_num) rfl (by norm_num)

/-- Witness for C2 at a concrete input: a level-15 weapon is rejected
unchanged, and a successful upgrade from level 14 lands exactly on the
cap. -/
theorem attemptUpgrade_max_level_cap_witness :
    attemptUpgrade ⟨"Ironborn Sword", 15, true⟩ (some ⟨1⟩) false 0 =
      .ok ⟨⟨"Ironborn Sword", 15, true⟩, some ⟨1⟩,
        ⟨false, none, false, "Max level reached"⟩⟩ ∧
    (EngineOk.mk ⟨"Ironborn Sword", 15, true⟩ (some ⟨1⟩)
      ⟨true, some 15, true, "Upgrade success! Ironborn Sword is now +15"⟩).weapon.upgrade_level ≤ 15 :=
  attemptUpgrade_max_level_cap ⟨"Ironborn Sword", 15, true⟩ ⟨"Ironborn Sword", 14, true⟩
    (some ⟨1⟩) (some ⟨1⟩) false false 0 0
    ⟨⟨"Ironborn Sword", 15, true⟩, some ⟨1⟩,
      ⟨true, some 15, true, "Upgrade success! Ironborn Sword is now +15"⟩⟩
    (by norm_num) (by norm_num)
    (by norm_num [attemptUpgrade, setLevel, calc_chance] <;> rfl)

/-- Witness for C4 (amended) at a concrete input: from level 3 with
draw `r = 1/2 ≤ calc_chance 4 = 1` the attempt succeeds and lands on
level 4 with glow recomputed. -/
theorem attemptUpgrade_success_iff_witness :
    ((EngineOk.mk ⟨"Ironborn Sword", 4, false⟩ none
        ⟨true, some 4, false, "Upgrade success! Ironborn Sword is now +4"⟩).resp.success = true ↔
      (1/2 : ℚ) ≤ calc_chance ((Weapon.mk "Ironborn Sword" 3 false).upgrade_level + 1)) ∧
    ((EngineOk.mk ⟨"Ironborn Sword", 4, false⟩ none
        ⟨true, some 4, false, "Upgrade success! Ironborn Sword is now +4"⟩).resp.success = true →
      (EngineOk.mk ⟨"Ironborn Sword", 4, false⟩ none
        ⟨true, some 4, false, "Upgrade success! Ironborn Sword is now +4"⟩).weapon.upgrade_level =
          (Weapon.mk "Ironborn Sword" 3 false).upgrade_level + 1 ∧
      (EngineOk.mk ⟨"Ironborn Sword", 4, false⟩ none
        ⟨true, some 4, false, "Upgrade success! Ironborn Sword is now +4"⟩).weapon.glow =
        decide ((EngineOk.mk ⟨"Ironborn Sword", 4, false⟩ none
          ⟨true, some 4, false, "Upgrade success! Ironborn Sword is now +4"⟩).weapon.upgrade_level ≥ 11)) :=
  attemptUpgrade_success_iff ⟨"Ironborn Sword", 3, false⟩ none false (1/2)
    ⟨⟨"Ironborn Sword", 4, false⟩, none,
      ⟨true, some 4, false, "Upgrade success! Ironborn Sword is now +4"⟩⟩
    (by norm_num)
    (by norm_num [attemptUpgrade, setLevel, calc_chance] <;> rfl)

/-- Witness for C5 at a concrete input: a glowing level-12 weapon that
fails its draw without a usable sigil is downgraded to level 11 and
still satisfies the glow invariant afterwards. -/
theorem attemptUpgrade_glow_invariant_witness :
    (Weapon.mk "Ironborn Sword" 11 true).glow =
      decide ((Weapon.mk "Ironborn Sword" 11 true).upgrade_level ≥ 11) :=
  attemptUpgrade_glow_invariant ⟨"Ironborn Sword", 12, true⟩ (some ⟨0⟩) true 1
    ⟨⟨"Ironborn Sword", 11, true⟩, some ⟨0⟩,
      ⟨false, none, false, "Upgrade failed. Item downgraded to +11"⟩⟩
    (by norm_num)
    (by norm_num [attemptUpgrade, setLevel, calc_chance] <;> rfl)

/-- Witness for C6 (amended) at a concrete input: a successful upgrade
to level 11 reports `glow = true`, matching the stored weapon. -/
theorem attemptUpgrade_response_glow_witness :
    ((EngineOk.mk ⟨"Ironborn Sword", 11, true⟩ none
        ⟨true, some 11, true, "Upgrade success! Ironborn Sword is now +11"⟩).resp.success = true →
      (EngineOk.mk ⟨"Ironborn Sword", 11, true⟩ none
        ⟨true, some 11, true, "Upgrade success! Ironborn Sword is now +11"⟩).resp.glow =
      (EngineOk.mk ⟨"Ironborn Sword", 11, true⟩ none
        ⟨true, some 11, true, "Upgrade success! Ironborn Sword is now +11"⟩).weapon.glow) ∧
    ((EngineOk.mk ⟨"Ironborn Sword", 11, true⟩ none
        ⟨true, some 11, true, "Upgrade success! Ironborn Sword is now +11"⟩).resp.success = false →
      (EngineOk.mk ⟨"Ironborn Sword", 11, true⟩ none
        ⟨true, some 11, true, "Upgrade success! Ironborn Sword is now +11"⟩).resp.glow = false) :=
  attemptUpgrade_response_glow ⟨"Ironborn Sword", 10, false⟩ none false 0
    ⟨⟨"Ironborn Sword", 11, true⟩, none,
      ⟨true, some 11, true, "Upgrade success! Ironborn Sword is now +11"⟩⟩
    (by norm_num [attemptUpgrade, setLevel, calc_chance] <;> rfl)

/-- Witness for C7 (amended) at a concrete input: the empty database
rejects any upgrade request with a 404. -/
theorem upgrade_item_not_found_witness :
    upgrade_item ⟨[], [], []⟩ ⟨"p1", "weapon", false⟩ 0 =
      .error (.httpNotFound "Player not found") ∨
    upgrade_item ⟨[], [], []⟩ ⟨"p1", "weapon", false⟩ 0 =
      .error (.httpNotFound "Weapon not found") :=
  upgrade_item_not_found ⟨[], [], []⟩ ⟨"p1", "weapon", false⟩ 0 (Or.inl rfl)

/-- Witness for C8 at a concrete input: consuming the only charge takes
the counter from 1 to 0, which is still non-negative and exactly one
less. -/
theorem sigil_protection_nonneg_witness :
    0 ≤ (Inventory.mk 0).sigil_protection ∧
    (Inventory.mk 0).sigil_protection ≤ (Inventory.mk 1).sigil_protection ∧
    ((Inventory.mk 0).sigil_protection ≠ (Inventory.mk 1).sigil_protection →
      0 < (Inventory.mk 1).sigil_protection ∧
      (Inventory.mk 0).sigil_protection = (Inventory.mk 1).sigil_protection - 1) :=
  sigil_protection_nonneg ⟨"Ironborn Sword", 12, true⟩ ⟨1⟩ true 1
    ⟨⟨"Ironborn Sword", 12, true⟩, some ⟨0⟩,
      ⟨false, none, false, "Upgrade failed but item protected by Sigil."⟩⟩
    ⟨0⟩ (by norm_num)
    (by norm_num [attemptUpgrade, calc_chance] <;> rfl) rfl

end CrownlessReign
